import Mathlib

set_option autoImplicit false

/-!
Shallow embedding of the capture-session pipeline of the `rustedscreencapture`
repository (Rust + ScreenCaptureKit), together with proofs settling the frozen
claims about its specification.

The embedding translates the Rust source:
* `src/lib.rs` — `RecordingConfiguration`, `ScreenSource`;
* `src/screencapturekit/recording.rs` — `RecordingManager` (`start_recording`,
  `stop_recording`, `validate_configuration`);
* `src/screencapturekit/stream_output.rs` — `StreamOutput` (sample handling,
  `ensure_recording_started`, `stop_recording`);
* `src/screencapturekit/encoder.rs` — `VideoEncoder`, `AudioEncoder`;
* `src/screencapturekit/filters.rs` — `ContentFilter`, `ContentFilterFactory`;
* `src/screencapturekit/content.rs` — `ContentManager.extract_screen_sources`.

Calls into the Objective-C runtime / ScreenCaptureKit / AVFoundation are
modelled by explicit environment records carrying the answers those native
calls return (null-ness of returned handles, readiness of writer inputs,
success of appends).  Every observable native side effect is logged into an
event list so that ordering properties ("no write before the session starts",
"nothing is allocated before validation") become statements about event lists.
-/

namespace RustedScreenCapture

/-- napi status codes actually used by the sources (`napi::Status`). -/
inductive NapiStatus where
  | InvalidArg
  | GenericFailure
deriving DecidableEq, Repr

/-- A napi error: `napi::Error::new(status, message)`. -/
structure NapiError where
  status : NapiStatus
  msg : String
deriving DecidableEq, Repr

/-- The `napi::Result` type of the sources. -/
abbrev RResult (α : Type) := Except NapiError α

instance {α : Type} [DecidableEq α] : DecidableEq (RResult α) := fun a b =>
  match a, b with
  | .ok x, .ok y => decidable_of_iff (x = y) (by simp)
  | .error x, .error y => decidable_of_iff (x = y) (by simp)
  | .ok _, .error _ => isFalse (by simp)
  | .error _, .ok _ => isFalse (by simp)

/-- `RecordingConfiguration` from `src/lib.rs` (u32 fields become `Nat`;
the claims never exercise u32 overflow, only range comparisons). -/
structure RecordingConfiguration where
  width : Option Nat
  height : Option Nat
  fps : Option Nat
  show_cursor : Option Bool
  capture_audio : Option Bool
  audio_device_id : Option String
  output_path : String
  pixel_format : Option String
  color_space : Option String
deriving DecidableEq, Repr

/-- The width check of `RecordingManager::validate_configuration`
(`recording.rs` lines 227-231). -/
def checkWidth (width? : Option Nat) : RResult Unit :=
  match width? with
  | some width =>
      if width < 100 ∨ width > 7680 then
        .error ⟨.InvalidArg, "Width must be between 100 and 7680"⟩
      else .ok ()
  | none => .ok ()

/-- The height check of `RecordingManager::validate_configuration`
(`recording.rs` lines 233-237). -/
def checkHeight (height? : Option Nat) : RResult Unit :=
  match height? with
  | some height =>
      if height < 100 ∨ height > 4320 then
        .error ⟨.InvalidArg, "Height must be between 100 and 4320"⟩
      else .ok ()
  | none => .ok ()

/-- The fps check of `RecordingManager::validate_configuration`
(`recording.rs` lines 239-243). -/
def checkFps (fps? : Option Nat) : RResult Unit :=
  match fps? with
  | some fps =>
      if fps < 1 ∨ fps > 120 then
        .error ⟨.InvalidArg, "FPS must be between 1 and 120"⟩
      else .ok ()
  | none => .ok ()

/-- `RecordingManager::validate_configuration` (`recording.rs` lines 222-246):
empty output path, then width, height, fps ranges, in that order. -/
def validate_configuration (config : RecordingConfiguration) : RResult Unit :=
  if config.output_path.isEmpty then
    .error ⟨.InvalidArg, "Output path cannot be empty"⟩
  else
    match checkWidth config.width with
    | .error e => .error e
    | .ok _ =>
      match checkHeight config.height with
      | .error e => .error e
      | .ok _ => checkFps config.fps

/-- `DisplayInfo` from `content.rs`. -/
structure DisplayInfo where
  id : Nat
  name : String
  width : Nat
  height : Nat
deriving DecidableEq, Repr

/-- `WindowInfo` from `content.rs`. -/
structure WindowInfo where
  id : Nat
  title : String
  width : Nat
  height : Nat
deriving DecidableEq, Repr

/-- `ScreenSource` from `src/lib.rs`. -/
structure ScreenSource where
  id : String
  name : String
  width : Nat
  height : Nat
  is_display : Bool
deriving DecidableEq, Repr

/-- The `ScreenSource` built for a display in
`ContentManager::extract_screen_sources` (`content.rs` lines 42-50). -/
def displaySource (d : DisplayInfo) : ScreenSource :=
  ⟨"display:" ++ toString d.id, d.name, d.width, d.height, true⟩

/-- The `ScreenSource` built for a window in
`ContentManager::extract_screen_sources` (`content.rs` lines 53-65). -/
def windowSource (w : WindowInfo) : ScreenSource :=
  ⟨"window:" ++ toString w.id, w.title, w.width, w.height, false⟩

/-- The window admission test of `ContentManager::extract_screen_sources`
(`content.rs` line 56): `!window.title.is_empty() && window.width > 100 &&
window.height > 100`. -/
def windowKeep (w : WindowInfo) : Bool :=
  !w.title.isEmpty && decide (100 < w.width) && decide (100 < w.height)

/-- `ContentManager::extract_screen_sources` (`content.rs` lines 37-69):
all displays, then the windows passing `windowKeep`. -/
def extract_screen_sources (displays : List DisplayInfo) (windows : List WindowInfo) :
    List ScreenSource :=
  displays.map displaySource ++ (windows.filter windowKeep).map windowSource

/-- `CMTime` (CoreMedia): the fields the code reads and writes.
`flags` and `epoch` are copied around unchanged by the sources and are
irrelevant to every claim, so they are omitted. -/
structure CMTime where
  value : Int
  timescale : Int
deriving DecidableEq, Repr

/-- `StreamOutput` from `stream_output.rs` lines 20-42.  The four writer-object
`Option` fields keep only their null-ness (`has_*`); the `Arc<Mutex<...>>`
wrappers are dropped because every handler holds the lock for the whole call. -/
structure StreamOutputState where
  has_asset_writer : Bool
  has_video_input : Bool
  has_audio_input : Bool
  has_pixel_buffer_adaptor : Bool
  output_path : String
  is_recording : Bool
  recording_started : Bool
  video_frame_count : Nat
  audio_sample_count : Nat
  start_time : Option CMTime
  width : Nat
  height : Nat
  fps : Nat
  capture_audio : Bool
deriving DecidableEq, Repr

namespace StreamOutput

/-- `StreamOutput::new` (`stream_output.rs` lines 45-64). -/
def new (output_path : String) (width height fps : Nat) (capture_audio : Bool) :
    StreamOutputState :=
  { has_asset_writer := false
    has_video_input := false
    has_audio_input := false
    has_pixel_buffer_adaptor := false
    output_path := output_path
    is_recording := false
    recording_started := false
    video_frame_count := 0
    audio_sample_count := 0
    start_time := none
    width := width
    height := height
    fps := fps
    capture_audio := capture_audio }

/-- Answers of the AVFoundation calls made by `initialize_asset_writer`. -/
structure InitEnv where
  asset_writer_ok : Bool
  can_add_video : Bool
  adaptor_ok : Bool
  can_add_audio : Bool
deriving DecidableEq, Repr

/-- `StreamOutput::initialize_asset_writer` (`stream_output.rs` lines 67-133):
on success the writer, the video input, the pixel-buffer adaptor, and (iff
`capture_audio`) the audio input are all installed together. -/
def initialize_asset_writer (s : StreamOutputState) (env : InitEnv) :
    RResult StreamOutputState :=
  if !env.asset_writer_ok then
    .error ⟨.GenericFailure, "Failed to create AVAssetWriter"⟩
  else if !env.can_add_video then
    .error ⟨.GenericFailure, "Cannot add video input"⟩
  else if !env.adaptor_ok then
    .error ⟨.GenericFailure, "Failed to create pixel buffer adaptor"⟩
  else if s.capture_audio && !env.can_add_audio then
    .error ⟨.GenericFailure, "Cannot add audio input"⟩
  else
    .ok { s with
      has_asset_writer := true
      has_video_input := true
      has_pixel_buffer_adaptor := true
      has_audio_input := s.capture_audio }

/-- Answers of the native calls a single sample-handling call can make. -/
structure WriterEnv where
  start_writing_ok : Bool
  video_ready : Bool
  image_buffer_ok : Bool
  video_append_ok : Bool
  audio_ready : Bool
  audio_append_ok : Bool
deriving DecidableEq, Repr

/-- Observable writer-side effects of the `StreamOutput` code.  Each append
event additionally records the session start time in force at the moment of
the append, so that "no write before the session started" is a property of
the event list. -/
inductive WEvent where
  | startWriting
  | startSession (t : CMTime)
  | appendVideo (t : CMTime) (startTimeAtWrite : Option CMTime)
  | appendAudio (t : CMTime) (startTimeAtWrite : Option CMTime)
  | markVideoFinished
  | markAudioFinished
  | finishWriting
deriving DecidableEq, Repr

/-- Result of one sample-handling call: successor state, emitted writer
events, and the `napi::Result` returned to the dispatcher. -/
structure HandleResult where
  state : StreamOutputState
  events : List WEvent
  result : RResult Unit
deriving DecidableEq, Repr

/-- `StreamOutput::ensure_recording_started` (`stream_output.rs` lines
265-294): on the first sample, and only when a writer is installed, start
writing, start the session at the sample's presentation time, store it as
`start_time`, and flip `recording_started`. -/
def ensure_recording_started (s : StreamOutputState) (env : WriterEnv) (pts : CMTime) :
    HandleResult :=
  if s.recording_started then ⟨s, [], .ok ()⟩
  else if s.has_asset_writer then
    if env.start_writing_ok then
      ⟨{ s with start_time := some pts, recording_started := true },
       [.startWriting, .startSession pts], .ok ()⟩
    else
      ⟨s, [.startWriting], .error ⟨.GenericFailure, "Failed to start writing session"⟩⟩
  else ⟨s, [], .ok ()⟩

/-- `StreamOutput::handle_video_sample` (`stream_output.rs` lines 136-180):
ensure the session is started, bump the frame counter, then append the pixel
buffer at the sample's raw presentation time when the input is ready and the
sample carries an image buffer.  A failed append is only logged. -/
def handle_video_sample (s : StreamOutputState) (env : WriterEnv) (pts : CMTime) :
    HandleResult :=
  let r := ensure_recording_started s env pts
  match r.result with
  | .error e => ⟨r.state, r.events, .error e⟩
  | .ok _ =>
    let s1 := { r.state with video_frame_count := r.state.video_frame_count + 1 }
    if s1.has_video_input && s1.has_pixel_buffer_adaptor then
      if !env.video_ready then ⟨s1, r.events, .ok ()⟩
      else if !env.image_buffer_ok then ⟨s1, r.events, .ok ()⟩
      else ⟨s1, r.events ++ [.appendVideo pts s1.start_time], .ok ()⟩
    else ⟨s1, r.events, .ok ()⟩

/-- `StreamOutput::handle_audio_sample` (`stream_output.rs` lines 183-218):
no-op unless audio capture is on; otherwise ensure the session is started,
bump the sample counter, then append when the audio input is ready.
A failed append is only logged. -/
def handle_audio_sample (s : StreamOutputState) (env : WriterEnv) (pts : CMTime) :
    HandleResult :=
  if !s.capture_audio then ⟨s, [], .ok ()⟩
  else
    let r := ensure_recording_started s env pts
    match r.result with
    | .error e => ⟨r.state, r.events, .error e⟩
    | .ok _ =>
      let s1 := { r.state with audio_sample_count := r.state.audio_sample_count + 1 }
      if s1.has_audio_input then
        if !env.audio_ready then ⟨s1, r.events, .ok ()⟩
        else ⟨s1, r.events ++ [.appendAudio pts s1.start_time], .ok ()⟩
      else ⟨s1, r.events, .ok ()⟩

/-- `StreamOutput::start_recording` (`stream_output.rs` lines 221-229). -/
def start_recording (s : StreamOutputState) : StreamOutputState :=
  { s with is_recording := true }

/-- `StreamOutput::stop_recording` (`stream_output.rs` lines 232-262):
clear the recording flag; when a writer is installed, mark the inputs
finished and finish writing; always return the output path. -/
def stop_recording (s : StreamOutputState) : StreamOutputState × List WEvent × String :=
  let s1 := { s with is_recording := false }
  if s1.has_asset_writer then
    (s1,
     (if s1.has_video_input then [WEvent.markVideoFinished] else []) ++
       (if s1.has_audio_input then [WEvent.markAudioFinished] else []) ++
       [WEvent.finishWriting],
     s1.output_path)
  else (s1, [], s1.output_path)

end StreamOutput

/-- Kind tag of a delivered sample (`SCStreamOutputType`: `Screen` is video,
`Audio`/`Microphone` both route to the audio handler,
`recording_manager.rs` lines 381-399). -/
inductive SampleKind where
  | video
  | audio
deriving DecidableEq, Repr

/-- One sample delivery from the OS: its kind, its presentation timestamp,
and the answers the writer gives to the native calls made while it is
handled. -/
structure DeliveredSample where
  kind : SampleKind
  pts : CMTime
  env : StreamOutput.WriterEnv
deriving DecidableEq, Repr

/-- Dispatch of one delivered sample to the matching `StreamOutput` handler
(`RecordingManager::handle_sample_buffer`, `recording_manager.rs` lines
381-399). -/
def handleSample (s : StreamOutputState) (d : DeliveredSample) : StreamOutput.HandleResult :=
  match d.kind with
  | .video => StreamOutput.handle_video_sample s d.env d.pts
  | .audio => StreamOutput.handle_audio_sample s d.env d.pts

/-- Deliver a list of samples in order.  A per-sample error is returned to the
OS callback and does not stop delivery of later samples, matching how the
dispatcher logs errors and returns normally. -/
def processTrace (s : StreamOutputState) :
    List DeliveredSample → StreamOutputState × List StreamOutput.WEvent
  | [] => (s, [])
  | d :: rest =>
      let r := handleSample s d
      let rest' := processTrace r.state rest
      (rest'.1, r.events ++ rest'.2)

/-- Observable writer-side effects of the `encoder.rs` encoders. -/
inductive EncEvent where
  | startSession (t : CMTime)
  | appendPixelBuffer (t : CMTime)
  | appendSampleBuffer
  | markFinished
  | finishWriting
deriving DecidableEq, Repr

/-- `VideoEncoder` from `encoder.rs` lines 23-31; the writer handles keep only
what the control flow reads.  `VideoEncoder::new` ends with
`is_recording: true, frame_count: 0, start_time: None`. -/
structure VideoEncoderState where
  output_url : String
  is_recording : Bool
  frame_count : Nat
  start_time : Option CMTime
deriving DecidableEq, Repr

/-- `AudioEncoder` from `encoder.rs` lines 233-239. -/
structure AudioEncoderState where
  output_url : String
  is_recording : Bool
  sample_count : Nat
deriving DecidableEq, Repr

/-- Answers of the native calls a single `encode_*` call can make. -/
structure EncodeEnv where
  ready : Bool
  append_ok : Bool
deriving DecidableEq, Repr

namespace VideoEncoder

/-- Success path of `VideoEncoder::new` (`encoder.rs` lines 34-98). -/
def new (output_path : String) : VideoEncoderState :=
  { output_url := output_path, is_recording := true, frame_count := 0, start_time := none }

/-- `VideoEncoder::encode_frame` (`encoder.rs` lines 100-151): no-op after
finalization; on the first frame start the session at the frame's
presentation time; skip when the input is not ready; otherwise append at a
frame time recomputed from the session start (`start.value +
frame_count * start.timescale / 30`, i64 arithmetic), erroring (without
counting the frame) when the append fails. -/
def encode_frame (s : VideoEncoderState) (env : EncodeEnv) (presentation_time : CMTime) :
    VideoEncoderState × List EncEvent × RResult Unit :=
  if !s.is_recording then (s, [], .ok ())
  else
    let started :=
      match s.start_time with
      | none => ({ s with start_time := some presentation_time },
                 [EncEvent.startSession presentation_time])
      | some _ => (s, ([] : List EncEvent))
    let s1 := started.1
    if !env.ready then (s1, started.2, .ok ())
    else
      let frame_time :=
        match s1.start_time with
        | some start =>
            { value := start.value + (s1.frame_count : Int) * start.timescale / 30,
              timescale := start.timescale : CMTime }
        | none => presentation_time
      if !env.append_ok then
        (s1, started.2 ++ [.appendPixelBuffer frame_time],
         .error ⟨.GenericFailure, "Failed to encode frame"⟩)
      else
        ({ s1 with frame_count := s1.frame_count + 1 },
         started.2 ++ [.appendPixelBuffer frame_time], .ok ())

/-- `VideoEncoder::finalize_encoding` (`encoder.rs` lines 153-170): when
already finalized, return the output url and touch nothing; otherwise clear
the flag, mark the input finished, and finish writing. -/
def finalize_encoding (s : VideoEncoderState) : VideoEncoderState × List EncEvent × String :=
  if !s.is_recording then (s, [], s.output_url)
  else ({ s with is_recording := false }, [.markFinished, .finishWriting], s.output_url)

end VideoEncoder

namespace AudioEncoder

/-- Success path of `AudioEncoder::new` (`encoder.rs` lines 242-298). -/
def new (output_path : String) : AudioEncoderState :=
  { output_url := output_path, is_recording := true, sample_count := 0 }

/-- `AudioEncoder::encode_audio_buffer` (`encoder.rs` lines 300-329). -/
def encode_audio_buffer (s : AudioEncoderState) (env : EncodeEnv) :
    AudioEncoderState × List EncEvent × RResult Unit :=
  if !s.is_recording then (s, [], .ok ())
  else if !env.ready then (s, [], .ok ())
  else if !env.append_ok then
    (s, [.appendSampleBuffer], .error ⟨.GenericFailure, "Failed to encode audio"⟩)
  else ({ s with sample_count := s.sample_count + 1 }, [.appendSampleBuffer], .ok ())

/-- `AudioEncoder::finalize_encoding` (`encoder.rs` lines 331-348). -/
def finalize_encoding (s : AudioEncoderState) : AudioEncoderState × List EncEvent × String :=
  if !s.is_recording then (s, [], s.output_url)
  else ({ s with is_recording := false }, [.markFinished, .finishWriting], s.output_url)

end AudioEncoder

/-- `ContentFilterType` from `types.rs`, as used by `filters.rs`. -/
inductive ContentFilterType where
  | Display (id : Nat)
  | Window (id : Nat)
  | Desktop
deriving DecidableEq, Repr

/-- `ContentFilter` from `filters.rs` lines 12-16 (the raw pointer keeps only
its null-ness, which is `true` in every `Ok` the constructors return). -/
structure ContentFilterModel where
  filter_type : ContentFilterType
  is_valid : Bool
deriving DecidableEq, Repr

/-- Answers of the permission check and of the ScreenCaptureKit calls made
while building a window filter: which window ids `extract_windows` can see,
and whether each filter-construction call returns a non-null handle. -/
structure FilterEnv where
  permission_ok : Bool
  extract_ok : Bool
  window_ids : List Nat
  window_filter_nonnull : Bool
  basic_filter_nonnull : Bool
deriving DecidableEq, Repr

namespace ContentFilter

/-- `ContentFilter::new_for_window` (`filters.rs` lines 57-91): permission
check, window extraction, linear lookup of the requested id, then the native
filter construction; each failure is an error. -/
def new_for_window (env : FilterEnv) (window_id : Nat) : RResult ContentFilterModel :=
  if !env.permission_ok then
    .error ⟨.GenericFailure, "Screen recording permission required"⟩
  else if !env.extract_ok then
    .error ⟨.GenericFailure, "Failed to extract windows"⟩
  else if !env.window_ids.contains window_id then
    .error ⟨.InvalidArg, "Window " ++ toString window_id ++ " not found"⟩
  else if !env.window_filter_nonnull then
    .error ⟨.GenericFailure, "Failed to create window content filter"⟩
  else .ok ⟨.Window window_id, true⟩

/-- `ContentFilter::new_basic` (`filters.rs` lines 94-107): a desktop filter
built through `create_content_filter_with_display(null)`; fails only when
that call returns null. -/
def new_basic (env : FilterEnv) : RResult ContentFilterModel :=
  if !env.basic_filter_nonnull then
    .error ⟨.GenericFailure, "Failed to create basic content filter"⟩
  else .ok ⟨.Desktop, true⟩

end ContentFilter

namespace ContentFilterFactory

/-- `ContentFilterFactory::create_window_filter` (`filters.rs` lines
165-183): try the exact-id window filter when shareable content is present;
on any failure fall back to the basic filter. -/
def create_window_filter (env : FilterEnv) (shareable_content : Bool) (window_id : Nat) :
    RResult ContentFilterModel :=
  if shareable_content then
    match ContentFilter.new_for_window env window_id with
    | .ok filter => .ok filter
    | .error _ => ContentFilter.new_basic env
  else ContentFilter.new_basic env

end ContentFilterFactory

/-- `RecordingManager` from `recording.rs` lines 22-32: handle fields keep
only their null-ness; the stream output keeps its full model state. -/
structure ManagerState where
  has_stream : Bool
  has_content_filter : Bool
  has_delegate : Bool
  has_delegate_bridge : Bool
  stream_output : Option StreamOutputState
  is_recording : Bool
  recording_config : Option RecordingConfiguration
  output_path : Option String
  has_shareable_content : Bool
deriving DecidableEq, Repr

/-- Observable native side effects (allocations and capture control) of the
`RecordingManager` code, in program order. -/
inductive MEvent where
  | fetchContent
  | allocFilter
  | allocStreamConfig
  | allocStreamOutput
  | allocDelegateBridge
  | allocStream
  | startCapture
  | stopCapture
deriving DecidableEq, Repr

/-- Answers of the permission check and of the native constructions
`start_recording` performs. -/
structure StartEnv where
  permission_ok : Bool
  filter_ok : Bool
  stream_config_ok : Bool
  bridge_ok : Bool
  stream_ok : Bool
deriving DecidableEq, Repr

namespace RecordingManager

/-- `RecordingManager::new` (`recording.rs` lines 41-53). -/
def new : ManagerState :=
  { has_stream := false
    has_content_filter := false
    has_delegate := false
    has_delegate_bridge := false
    stream_output := none
    is_recording := false
    recording_config := none
    output_path := none
    has_shareable_content := false }

/-- `RecordingManager::start_recording` (`recording.rs` lines 73-151), in
program order: validate the configuration, reject when already recording,
initialize shareable content if needed (permission gate; the content fetch
itself never fails, `content.rs` lines 111-146), store the output path and
configuration, create the content filter (the factory is called with no
shareable content, `recording.rs` line 255, so it goes straight to the basic
filter), create the stream configuration, the stream output, the delegate
bridge, and the stream, start capture, and finally flip `is_recording`. -/
def start_recording (s : ManagerState) (env : StartEnv) (config : RecordingConfiguration) :
    RResult String × ManagerState × List MEvent :=
  match validate_configuration config with
  | .error e => (.error e, s, [])
  | .ok _ =>
    if s.is_recording then (.error ⟨.GenericFailure, "Already recording"⟩, s, [])
    else
      let initialized : RResult (ManagerState × List MEvent) :=
        if s.has_shareable_content then .ok (s, [])
        else if !env.permission_ok then
          .error ⟨.GenericFailure, "Screen recording permission required"⟩
        else .ok ({ s with has_shareable_content := true }, [.fetchContent])
      match initialized with
      | .error e => (.error e, s, [])
      | .ok (s1, ev1) =>
        let s2 := { s1 with output_path := some config.output_path,
                            recording_config := some config }
        if !env.filter_ok then
          (.error ⟨.GenericFailure, "Failed to create basic content filter"⟩, s2, ev1)
        else
          let s3 := { s2 with has_content_filter := true }
          let ev3 := ev1 ++ [MEvent.allocFilter]
          if !env.stream_config_ok then
            (.error ⟨.GenericFailure, "Failed to create stream configuration"⟩, s3, ev3)
          else
            let ev4 := ev3 ++ [MEvent.allocStreamConfig]
            let so := StreamOutput.new config.output_path (config.width.getD 1920)
              (config.height.getD 1080) (config.fps.getD 30) (config.capture_audio.getD false)
            let s5 := { s3 with stream_output := some so }
            let ev5 := ev4 ++ [MEvent.allocStreamOutput]
            if !env.bridge_ok then
              (.error ⟨.GenericFailure, "Failed to create delegate bridge"⟩, s5, ev5)
            else
              let s6 := { s5 with has_delegate := true, has_delegate_bridge := true }
              let ev6 := ev5 ++ [MEvent.allocDelegateBridge]
              if !env.stream_ok then
                (.error ⟨.GenericFailure, "Failed to create stream"⟩, s6, ev6)
              else
                let s7 := { s6 with has_stream := true }
                let ev7 := ev6 ++ [MEvent.allocStream, MEvent.startCapture]
                (.ok ("Recording started: " ++ config.output_path),
                 { s7 with is_recording := true }, ev7)

/-- `RecordingManager::stop_recording` (`recording.rs` lines 154-192):
reject when not recording; stop capture when a stream exists; finalize the
stream output (which yields the output path); clear `is_recording`; then
`cleanup` drops every handle except the stored output path. -/
def stop_recording (s : ManagerState) : RResult String × ManagerState × List MEvent :=
  if !s.is_recording then (.error ⟨.GenericFailure, "Not currently recording"⟩, s, [])
  else
    let ev1 := if s.has_stream then [MEvent.stopCapture] else []
    let path :=
      match s.stream_output with
      | some so => (StreamOutput.stop_recording so).2.2
      | none => s.output_path.getD ""
    (.ok path,
     { s with is_recording := false, has_stream := false, has_content_filter := false,
              has_delegate := false, has_delegate_bridge := false, stream_output := none,
              recording_config := none },
     ev1)

end RecordingManager

/-! Characterization lemmas for the `StreamOutput` sample handlers. -/

theorem ensure_of_started (s : StreamOutputState) (env : StreamOutput.WriterEnv) (pts : CMTime)
    (h : s.recording_started = true) :
    StreamOutput.ensure_recording_started s env pts = ⟨s, [], .ok ()⟩ := by
  simp [StreamOutput.ensure_recording_started, h]

theorem ensure_first_ok (s : StreamOutputState) (env : StreamOutput.WriterEnv) (pts : CMTime)
    (hs : s.recording_started = false) (hw : s.has_asset_writer = true)
    (henv : env.start_writing_ok = true) :
    StreamOutput.ensure_recording_started s env pts
      = ⟨{ s with start_time := some pts, recording_started := true },
         [.startWriting, .startSession pts], .ok ()⟩ := by
  simp [StreamOutput.ensure_recording_started, hs, hw, henv]

theorem ensure_first_fail (s : StreamOutputState) (env : StreamOutput.WriterEnv) (pts : CMTime)
    (hs : s.recording_started = false) (hw : s.has_asset_writer = true)
    (henv : env.start_writing_ok = false) :
    StreamOutput.ensure_recording_started s env pts
      = ⟨s, [.startWriting], .error ⟨.GenericFailure, "Failed to start writing session"⟩⟩ := by
  simp [StreamOutput.ensure_recording_started, hs, hw, henv]

theorem ensure_no_writer (s : StreamOutputState) (env : StreamOutput.WriterEnv) (pts : CMTime)
    (hs : s.recording_started = false) (hw : s.has_asset_writer = false) :
    StreamOutput.ensure_recording_started s env pts = ⟨s, [], .ok ()⟩ := by
  simp [StreamOutput.ensure_recording_started, hs, hw]

theorem handle_video_of_started (s : StreamOutputState) (env : StreamOutput.WriterEnv)
    (pts : CMTime) (h : s.recording_started = true) :
    StreamOutput.handle_video_sample s env pts
      = ⟨{ s with video_frame_count := s.video_frame_count + 1 },
         if s.has_video_input && s.has_pixel_buffer_adaptor
             && env.video_ready && env.image_buffer_ok
         then [.appendVideo pts s.start_time] else [], .ok ()⟩ := by
  unfold StreamOutput.handle_video_sample
  rw [ensure_of_started s env pts h]
  cases h1 : s.has_video_input <;> cases h2 : s.has_pixel_buffer_adaptor <;>
    cases h3 : env.video_ready <;> cases h4 : env.image_buffer_ok <;> simp [h1, h2, h3, h4]

theorem handle_video_first_ok (s : StreamOutputState) (env : StreamOutput.WriterEnv)
    (pts : CMTime) (hs : s.recording_started = false) (hw : s.has_asset_writer = true)
    (henv : env.start_writing_ok = true) :
    StreamOutput.handle_video_sample s env pts
      = ⟨{ s with start_time := some pts, recording_started := true,
                  video_frame_count := s.video_frame_count + 1 },
         [StreamOutput.WEvent.startWriting, StreamOutput.WEvent.startSession pts] ++
           (if s.has_video_input && s.has_pixel_buffer_adaptor
                && env.video_ready && env.image_buffer_ok
            then [StreamOutput.WEvent.appendVideo pts (some pts)] else []), .ok ()⟩ := by
  unfold StreamOutput.handle_video_sample
  rw [ensure_first_ok s env pts hs hw henv]
  cases h1 : s.has_video_input <;> cases h2 : s.has_pixel_buffer_adaptor <;>
    cases h3 : env.video_ready <;> cases h4 : env.image_buffer_ok <;> simp [h1, h2, h3, h4]

theorem handle_video_first_fail (s : StreamOutputState) (env : StreamOutput.WriterEnv)
    (pts : CMTime) (hs : s.recording_started = false) (hw : s.has_asset_writer = true)
    (henv : env.start_writing_ok = false) :
    StreamOutput.handle_video_sample s env pts
      = ⟨s, [StreamOutput.WEvent.startWriting],
         .error ⟨.GenericFailure, "Failed to start writing session"⟩⟩ := by
  unfold StreamOutput.handle_video_sample
  rw [ensure_first_fail s env pts hs hw henv]

theorem handle_video_no_writer (s : StreamOutputState) (env : StreamOutput.WriterEnv)
    (pts : CMTime) (hs : s.recording_started = false) (hw : s.has_asset_writer = false) :
    StreamOutput.handle_video_sample s env pts
      = ⟨{ s with video_frame_count := s.video_frame_count + 1 },
         if s.has_video_input && s.has_pixel_buffer_adaptor
             && env.video_ready && env.image_buffer_ok
         then [.appendVideo pts s.start_time] else [], .ok ()⟩ := by
  unfold StreamOutput.handle_video_sample
  rw [ensure_no_writer s env pts hs hw]
  cases h1 : s.has_video_input <;> cases h2 : s.has_pixel_buffer_adaptor <;>
    cases h3 : env.video_ready <;> cases h4 : env.image_buffer_ok <;> simp [h1, h2, h3, h4]

theorem handle_audio_off (s : StreamOutputState) (env : StreamOutput.WriterEnv) (pts : CMTime)
    (hcap : s.capture_audio = false) :
    StreamOutput.handle_audio_sample s env pts = ⟨s, [], .ok ()⟩ := by
  simp [StreamOutput.handle_audio_sample, hcap]

theorem handle_audio_of_started (s : StreamOutputState) (env : StreamOutput.WriterEnv)
    (pts : CMTime) (hcap : s.capture_audio = true) (h : s.recording_started = true) :
    StreamOutput.handle_audio_sample s env pts
      = ⟨{ s with audio_sample_count := s.audio_sample_count + 1 },
         if s.has_audio_input && env.audio_ready
         then [.appendAudio pts s.start_time] else [], .ok ()⟩ := by
  unfold StreamOutput.handle_audio_sample
  rw [hcap]
  rw [show StreamOutput.ensure_recording_started s env pts = ⟨s, [], .ok ()⟩ from
    ensure_of_started s env pts h]
  cases h1 : s.has_audio_input <;> cases h2 : env.audio_ready <;> simp [h1, h2, hcap]

theorem handle_audio_first_ok (s : StreamOutputState) (env : StreamOutput.WriterEnv)
    (pts : CMTime) (hcap : s.capture_audio = true) (hs : s.recording_started = false)
    (hw : s.has_asset_writer = true) (henv : env.start_writing_ok = true) :
    StreamOutput.handle_audio_sample s env pts
      = ⟨{ s with start_time := some pts, recording_started := true,
                  audio_sample_count := s.audio_sample_count + 1 },
         [StreamOutput.WEvent.startWriting, StreamOutput.WEvent.startSession pts] ++
           (if s.has_audio_input && env.audio_ready
            then [StreamOutput.WEvent.appendAudio pts (some pts)] else []), .ok ()⟩ := by
  unfold StreamOutput.handle_audio_sample
  rw [hcap]
  rw [ensure_first_ok s env pts hs hw henv]
  cases h1 : s.has_audio_input <;> cases h2 : env.audio_ready <;> simp [h1, h2, hcap]

theorem handle_audio_first_fail (s : StreamOutputState) (env : StreamOutput.WriterEnv)
    (pts : CMTime) (hcap : s.capture_audio = true) (hs : s.recording_started = false)
    (hw : s.has_asset_writer = true) (henv : env.start_writing_ok = false) :
    StreamOutput.handle_audio_sample s env pts
      = ⟨s, [StreamOutput.WEvent.startWriting],
         .error ⟨.GenericFailure, "Failed to start writing session"⟩⟩ := by
  unfold StreamOutput.handle_audio_sample
  rw [hcap]
  rw [ensure_first_fail s env pts hs hw henv]
  simp

theorem handle_audio_no_writer (s : StreamOutputState) (env : StreamOutput.WriterEnv)
    (pts : CMTime) (hcap : s.capture_audio = true) (hs : s.recording_started = false)
    (hw : s.has_asset_writer = false) :
    StreamOutput.handle_audio_sample s env pts
      = ⟨{ s with audio_sample_count := s.audio_sample_count + 1 },
         if s.has_audio_input && env.audio_ready
         then [.appendAudio pts s.start_time] else [], .ok ()⟩ := by
  unfold StreamOutput.handle_audio_sample
  rw [hcap]
  rw [ensure_no_writer s env pts hs hw]
  cases h1 : s.has_audio_input <;> cases h2 : env.audio_ready <;> simp [h1, h2, hcap]

/-! Dispatch- and trace-level lemmas. -/

theorem handleSample_of_started (s : StreamOutputState) (d : DeliveredSample)
    (h : s.recording_started = true) :
    (handleSample s d).state.recording_started = true
    ∧ (handleSample s d).state.start_time = s.start_time := by
  rcases d with ⟨k, pts, env⟩
  cases k
  · simp only [handleSample]
    rw [handle_video_of_started s env pts h]
    exact ⟨h, rfl⟩
  · cases hcap : s.capture_audio
    · simp only [handleSample]
      rw [handle_audio_off s env pts hcap]
      exact ⟨h, rfl⟩
    · simp only [handleSample]
      rw [handle_audio_of_started s env pts hcap h]
      exact ⟨h, rfl⟩

theorem handleSample_first (s : StreamOutputState) (d : DeliveredSample)
    (hs : s.recording_started = false) (hw : s.has_asset_writer = true)
    (hcap : s.capture_audio = true) (henv : d.env.start_writing_ok = true) :
    (handleSample s d).state.recording_started = true
    ∧ (handleSample s d).state.start_time = some d.pts := by
  rcases d with ⟨k, pts, env⟩
  cases k
  · simp only [handleSample]
    rw [handle_video_first_ok s env pts hs hw henv]
    exact ⟨rfl, rfl⟩
  · simp only [handleSample]
    rw [handle_audio_first_ok s env pts hcap hs hw henv]
    exact ⟨rfl, rfl⟩

theorem handleSample_fields (s : StreamOutputState) (d : DeliveredSample) :
    (handleSample s d).state.has_asset_writer = s.has_asset_writer
    ∧ (handleSample s d).state.has_video_input = s.has_video_input
    ∧ (handleSample s d).state.has_audio_input = s.has_audio_input
    ∧ (handleSample s d).state.has_pixel_buffer_adaptor = s.has_pixel_buffer_adaptor
    ∧ (handleSample s d).state.capture_audio = s.capture_audio := by
  rcases d with ⟨k, pts, env⟩
  cases k
  · cases hs : s.recording_started
    · cases hw : s.has_asset_writer
      · simp only [handleSample]
        rw [handle_video_no_writer s env pts hs hw]
        simp_all
      · cases he : env.start_writing_ok
        · simp only [handleSample]
          rw [handle_video_first_fail s env pts hs hw he]
          simp_all
        · simp only [handleSample]
          rw [handle_video_first_ok s env pts hs hw he]
          simp_all
    · simp only [handleSample]
      rw [handle_video_of_started s env pts hs]
      simp_all
  · cases hcap : s.capture_audio
    · simp only [handleSample]
      rw [handle_audio_off s env pts hcap]
      simp_all
    · cases hs : s.recording_started
      · cases hw : s.has_asset_writer
        · simp only [handleSample]
          rw [handle_audio_no_writer s env pts hcap hs hw]
          simp_all
        · cases he : env.start_writing_ok
          · simp only [handleSample]
            rw [handle_audio_first_fail s env pts hcap hs hw he]
            simp_all
          · simp only [handleSample]
            rw [handle_audio_first_ok s env pts hcap hs hw he]
            simp_all
      · simp only [handleSample]
        rw [handle_audio_of_started s env pts hcap hs]
        simp_all

theorem handleSample_inv (s : StreamOutputState) (d : DeliveredSample)
    (hinv : s.recording_started = true → s.start_time.isSome = true) :
    (handleSample s d).state.recording_started = true →
      (handleSample s d).state.start_time.isSome = true := by
  cases hs : s.recording_started
  · rcases d with ⟨k, pts, env⟩
    cases k
    · cases hw : s.has_asset_writer
      · simp only [handleSample]
        rw [handle_video_no_writer s env pts hs hw]
        intro hc
        simp [hs] at hc
      · cases he : env.start_writing_ok
        · simp only [handleSample]
          rw [handle_video_first_fail s env pts hs hw he]
          intro hc
          simp [hs] at hc
        · simp only [handleSample]
          rw [handle_video_first_ok s env pts hs hw he]
          intro _
          rfl
    · cases hcap : s.capture_audio
      · simp only [handleSample]
        rw [handle_audio_off s env pts hcap]
        intro hc
        simp [hs] at hc
      · cases hw : s.has_asset_writer
        · simp only [handleSample]
          rw [handle_audio_no_writer s env pts hcap hs hw]
          intro hc
          simp [hs] at hc
        · cases he : env.start_writing_ok
          · simp only [handleSample]
            rw [handle_audio_first_fail s env pts hcap hs hw he]
            intro hc
            simp [hs] at hc
          · simp only [handleSample]
            rw [handle_audio_first_ok s env pts hcap hs hw he]
            intro _
            rfl
  · intro _
    have h2 := handleSample_of_started s d hs
    rw [h2.2]
    exact hinv hs

theorem handleSample_appendVideo_mem (s : StreamOutputState) (d : DeliveredSample)
    (t : CMTime) (os : Option CMTime)
    (h : StreamOutput.WEvent.appendVideo t os ∈ (handleSample s d).events) :
    t = d.pts ∧ os = (handleSample s d).state.start_time := by
  rcases d with ⟨k, pts, env⟩
  cases k
  · cases hs : s.recording_started
    · cases hw : s.has_asset_writer
      · simp only [handleSample] at h ⊢
        rw [handle_video_no_writer s env pts hs hw] at h ⊢
        by_cases hc : (s.has_video_input && s.has_pixel_buffer_adaptor
            && env.video_ready && env.image_buffer_ok) = true
        · simp [hc] at h
          exact ⟨h.1, h.2⟩
        · simp [hc] at h
      · cases he : env.start_writing_ok
        · simp only [handleSample] at h
          rw [handle_video_first_fail s env pts hs hw he] at h
          simp at h
        · simp only [handleSample] at h ⊢
          rw [handle_video_first_ok s env pts hs hw he] at h ⊢
          by_cases hc : (s.has_video_input && s.has_pixel_buffer_adaptor
              && env.video_ready && env.image_buffer_ok) = true
          · simp [hc] at h
            exact ⟨h.1, h.2⟩
          · simp [hc] at h
    · simp only [handleSample] at h ⊢
      rw [handle_video_of_started s env pts hs] at h ⊢
      by_cases hc : (s.has_video_input && s.has_pixel_buffer_adaptor
          && env.video_ready && env.image_buffer_ok) = true
      · simp [hc] at h
        exact ⟨h.1, h.2⟩
      · simp [hc] at h
  · cases hcap : s.capture_audio
    · simp only [handleSample] at h
      rw [handle_audio_off s env pts hcap] at h
      simp at h
    · cases hs : s.recording_started
      · cases hw : s.has_asset_writer
        · simp only [handleSample] at h
          rw [handle_audio_no_writer s env pts hcap hs hw] at h
          by_cases hc : (s.has_audio_input && env.audio_ready) = true <;> simp [hc] at h
        · cases he : env.start_writing_ok
          · simp only [handleSample] at h
            rw [handle_audio_first_fail s env pts hcap hs hw he] at h
            simp at h
          · simp only [handleSample] at h
            rw [handle_audio_first_ok s env pts hcap hs hw he] at h
            by_cases hc : (s.has_audio_input && env.audio_ready) = true <;> simp [hc] at h
      · simp only [handleSample] at h
        rw [handle_audio_of_started s env pts hcap hs] at h
        by_cases hc : (s.has_audio_input && env.audio_ready) = true <;> simp [hc] at h

theorem handleSample_appendAudio_mem (s : StreamOutputState) (d : DeliveredSample)
    (t : CMTime) (os : Option CMTime)
    (h : StreamOutput.WEvent.appendAudio t os ∈ (handleSample s d).events) :
    t = d.pts ∧ os = (handleSample s d).state.start_time := by
  rcases d with ⟨k, pts, env⟩
  cases k
  · cases hs : s.recording_started
    · cases hw : s.has_asset_writer
      · simp only [handleSample] at h
        rw [handle_video_no_writer s env pts hs hw] at h
        by_cases hc : (s.has_video_input && s.has_pixel_buffer_adaptor
            && env.video_ready && env.image_buffer_ok) = true <;> simp [hc] at h
      · cases he : env.start_writing_ok
        · simp only [handleSample] at h
          rw [handle_video_first_fail s env pts hs hw he] at h
          simp at h
        · simp only [handleSample] at h
          rw [handle_video_first_ok s env pts hs hw he] at h
          by_cases hc : (s.has_video_input && s.has_pixel_buffer_adaptor
              && env.video_ready && env.image_buffer_ok) = true <;> simp [hc] at h
    · simp only [handleSample] at h
      rw [handle_video_of_started s env pts hs] at h
      by_cases hc : (s.has_video_input && s.has_pixel_buffer_adaptor
          && env.video_ready && env.image_buffer_ok) = true <;> simp [hc] at h
  · cases hcap : s.capture_audio
    · simp only [handleSample] at h
      rw [handle_audio_off s env pts hcap] at h
      simp at h
    · cases hs : s.recording_started
      · cases hw : s.has_asset_writer
        · simp only [handleSample] at h ⊢
          rw [handle_audio_no_writer s env pts hcap hs hw] at h ⊢
          by_cases hc : (s.has_audio_input && env.audio_ready) = true
          · simp [hc] at h
            exact ⟨h.1, h.2⟩
          · simp [hc] at h
        · cases he : env.start_writing_ok
          · simp only [handleSample] at h
            rw [handle_audio_first_fail s env pts hcap hs hw he] at h
            simp at h
          · simp only [handleSample] at h ⊢
            rw [handle_audio_first_ok s env pts hcap hs hw he] at h ⊢
            by_cases hc : (s.has_audio_input && env.audio_ready) = true
            · simp [hc] at h
              exact ⟨h.1, h.2⟩
            · simp [hc] at h
      · simp only [handleSample] at h ⊢
        rw [handle_audio_of_started s env pts hcap hs] at h ⊢
        by_cases hc : (s.has_audio_input && env.audio_ready) = true
        · simp [hc] at h
          exact ⟨h.1, h.2⟩
        · simp [hc] at h


theorem handleSample_append_isSome (s : StreamOutputState) (d : DeliveredSample)
    (t : CMTime) (os : Option CMTime)
    (hwv : s.has_video_input = true → s.has_asset_writer = true)
    (hwa : s.has_audio_input = true → s.has_asset_writer = true)
    (hinv : s.recording_started = true → s.start_time.isSome = true)
    (h : StreamOutput.WEvent.appendVideo t os ∈ (handleSample s d).events
       ∨ StreamOutput.WEvent.appendAudio t os ∈ (handleSample s d).events) :
    os.isSome = true := by
  have hos : os = (handleSample s d).state.start_time := by
    rcases h with h | h
    · exact (handleSample_appendVideo_mem s d t os h).2
    · exact (handleSample_appendAudio_mem s d t os h).2
  cases hs : s.recording_started
  · rcases d with ⟨k, pts, env⟩
    cases k
    · cases hvi : s.has_video_input
      · exfalso
        cases hw : s.has_asset_writer
        · rcases h with h | h <;>
            [skip;
             · simp only [handleSample] at h
               rw [handle_video_no_writer s env pts hs hw] at h
               by_cases hc : (s.has_video_input && s.has_pixel_buffer_adaptor
                   && env.video_ready && env.image_buffer_ok) = true <;> simp [hc] at h]
          simp only [handleSample] at h
          rw [handle_video_no_writer s env pts hs hw] at h
          simp [hvi] at h
        · cases he : env.start_writing_ok
          · rcases h with h | h <;> simp only [handleSample] at h <;>
              rw [handle_video_first_fail s env pts hs hw he] at h <;> simp at h
          · rcases h with h | h <;> simp only [handleSample] at h <;>
              rw [handle_video_first_ok s env pts hs hw he] at h <;> simp [hvi] at h
      · have hw := hwv hvi
        cases he : env.start_writing_ok
        · exfalso
          rcases h with h | h <;> simp only [handleSample] at h <;>
            rw [handle_video_first_fail s env pts hs hw he] at h <;> simp at h
        · rw [hos]
          simp only [handleSample]
          rw [handle_video_first_ok s env pts hs hw he]
          rfl
    · cases hcap : s.capture_audio
      · exfalso
        rcases h with h | h <;> simp only [handleSample] at h <;>
          rw [handle_audio_off s env pts hcap] at h <;> simp at h
      · cases hai : s.has_audio_input
        · exfalso
          cases hw : s.has_asset_writer
          · rcases h with h | h <;> simp only [handleSample] at h <;>
              rw [handle_audio_no_writer s env pts hcap hs hw] at h <;> simp [hai] at h
          · cases he : env.start_writing_ok
            · rcases h with h | h <;> simp only [handleSample] at h <;>
                rw [handle_audio_first_fail s env pts hcap hs hw he] at h <;> simp at h
            · rcases h with h | h <;> simp only [handleSample] at h <;>
                rw [handle_audio_first_ok s env pts hcap hs hw he] at h <;> simp [hai] at h
        · have hw := hwa hai
          cases he : env.start_writing_ok
          · exfalso
            rcases h with h | h <;> simp only [handleSample] at h <;>
              rw [handle_audio_first_fail s env pts hcap hs hw he] at h <;> simp at h
          · rw [hos]
            simp only [handleSample]
            rw [handle_audio_first_ok s env pts hcap hs hw he]
            rfl
  · rw [hos, (handleSample_of_started s d hs).2]
    exact hinv hs

theorem processTrace_of_started (s : StreamOutputState) (l : List DeliveredSample)
    (h : s.recording_started = true) :
    (processTrace s l).1.recording_started = true
    ∧ (processTrace s l).1.start_time = s.start_time := by
  induction l generalizing s with
  | nil => exact ⟨h, rfl⟩
  | cons d rest ih =>
      have h1 := handleSample_of_started s d h
      have h2 := ih (handleSample s d).state h1.1
      simp only [processTrace]
      exact ⟨h2.1, h2.2.trans h1.2⟩

theorem processTrace_append_isSome (s : StreamOutputState) (l : List DeliveredSample)
    (t : CMTime) (os : Option CMTime)
    (hwv : s.has_video_input = true → s.has_asset_writer = true)
    (hwa : s.has_audio_input = true → s.has_asset_writer = true)
    (hinv : s.recording_started = true → s.start_time.isSome = true)
    (h : StreamOutput.WEvent.appendVideo t os ∈ (processTrace s l).2
       ∨ StreamOutput.WEvent.appendAudio t os ∈ (processTrace s l).2) :
    os.isSome = true := by
  induction l generalizing s with
  | nil => rcases h with h | h <;> simp [processTrace] at h
  | cons d rest ih =>
      have hf := handleSample_fields s d
      have hwv' : (handleSample s d).state.has_video_input = true →
          (handleSample s d).state.has_asset_writer = true := by
        intro hx
        rw [hf.2.1] at hx
        rw [hf.1]
        exact hwv hx
      have hwa' : (handleSample s d).state.has_audio_input = true →
          (handleSample s d).state.has_asset_writer = true := by
        intro hx
        rw [hf.2.2.1] at hx
        rw [hf.1]
        exact hwa hx
      have hinv' := handleSample_inv s d hinv
      simp only [processTrace, List.mem_append] at h
      rcases h with (h | h) | (h | h)
      · exact handleSample_append_isSome s d t os hwv hwa hinv (Or.inl h)
      · exact ih (handleSample s d).state hwv' hwa' hinv' (Or.inl h)
      · exact handleSample_append_isSome s d t os hwv hwa hinv (Or.inr h)
      · exact ih (handleSample s d).state hwv' hwa' hinv' (Or.inr h)

theorem processTrace_appendVideo_steady (s : StreamOutputState) (l : List DeliveredSample)
    (T : CMTime) (hs : s.recording_started = true) (ht : s.start_time = some T)
    (t : CMTime) (os : Option CMTime)
    (h : StreamOutput.WEvent.appendVideo t os ∈ (processTrace s l).2) :
    os = some T ∧ ∃ d, d ∈ l ∧ t = d.pts := by
  induction l generalizing s with
  | nil => simp [processTrace] at h
  | cons d rest ih =>
      simp only [processTrace, List.mem_append] at h
      rcases h with h | h
      · have hm := handleSample_appendVideo_mem s d t os h
        have h1 := handleSample_of_started s d hs
        refine ⟨?_, d, List.mem_cons_self d rest, hm.1⟩
        rw [hm.2, h1.2, ht]
      · have h1 := handleSample_of_started s d hs
        have h2 := ih (handleSample s d).state h1.1 (h1.2.trans ht) h
        rcases h2 with ⟨h2a, d2, h2b, h2c⟩
        exact ⟨h2a, d2, List.mem_cons_of_mem d h2b, h2c⟩


/-! Claim theorems. -/

/-- C2: `start()` rejects every configuration whose width is outside
[100,7680], height outside [100,4320], fps outside [1,120], or whose output
path is empty, and configurations with all values inside these inclusive
ranges pass validation; when validation fails, `start_recording` returns that
error with the session state unchanged and no native side effect performed
(validation precedes side effects). -/
theorem c2_validation_ranges_precede_effects :
    (∀ config : RecordingConfiguration,
        validate_configuration config = .ok () ↔
          (config.output_path.isEmpty = false
           ∧ (match config.width with | some w => 100 ≤ w ∧ w ≤ 7680 | none => True)
           ∧ (match config.height with | some h => 100 ≤ h ∧ h ≤ 4320 | none => True)
           ∧ (match config.fps with | some f => 1 ≤ f ∧ f ≤ 120 | none => True)))
    ∧ (∀ (s : ManagerState) (env : StartEnv) (config : RecordingConfiguration) (e : NapiError),
        validate_configuration config = .error e →
          RecordingManager.start_recording s env config = (.error e, s, [])) := by
  constructor
  · intro config
    rcases config with ⟨w, h, f, sc, ca, ad, path, pf, cs⟩
    unfold validate_configuration checkWidth checkHeight checkFps
    dsimp only
    cases hpath : path.isEmpty <;> cases w <;> cases h <;> cases f <;>
      simp [hpath] <;> (try split_ifs) <;> (try simp_all) <;> omega
  · intro s env config e hval
    unfold RecordingManager.start_recording
    rw [hval]

/-- C7: `finalize_encoding` is idempotent for both encoders: the second call
returns the same output path, performs no writer operation, and leaves the
encoder state unchanged. -/
theorem c7_finalize_idempotent :
    (∀ s : VideoEncoderState,
        (VideoEncoder.finalize_encoding (VideoEncoder.finalize_encoding s).1).2.2
            = (VideoEncoder.finalize_encoding s).2.2
          ∧ (VideoEncoder.finalize_encoding (VideoEncoder.finalize_encoding s).1).2.1 = []
          ∧ (VideoEncoder.finalize_encoding (VideoEncoder.finalize_encoding s).1).1
            = (VideoEncoder.finalize_encoding s).1)
    ∧ (∀ s : AudioEncoderState,
        (AudioEncoder.finalize_encoding (AudioEncoder.finalize_encoding s).1).2.2
            = (AudioEncoder.finalize_encoding s).2.2
          ∧ (AudioEncoder.finalize_encoding (AudioEncoder.finalize_encoding s).1).2.1 = []
          ∧ (AudioEncoder.finalize_encoding (AudioEncoder.finalize_encoding s).1).1
            = (AudioEncoder.finalize_encoding s).1) := by
  constructor
  · intro s
    unfold VideoEncoder.finalize_encoding
    cases h : s.is_recording <;> simp [h]
  · intro s
    unfold AudioEncoder.finalize_encoding
    cases h : s.is_recording <;> simp [h]

/-- C10: after `finalize_encoding`, every `encode_frame` call succeeds while
appending nothing: no writer event is emitted and the state (in particular
the frame count) is unchanged. -/
theorem c10_encode_after_finalize (s : VideoEncoderState) (env : EncodeEnv) (t : CMTime) :
    VideoEncoder.encode_frame (VideoEncoder.finalize_encoding s).1 env t
      = ((VideoEncoder.finalize_encoding s).1, [], .ok ()) := by
  unfold VideoEncoder.finalize_encoding VideoEncoder.encode_frame
  cases h : s.is_recording <;> simp [h]

/-- C9 counterexample: a window entry with non-empty title and width exactly
100 (hence "not below 100 pixels") is nevertheless dropped from the extracted
screen sources, because the code keeps only windows strictly wider and taller
than 100; so the claimed equivalence fails at this input. -/
theorem c9_counterexample :
    ¬ ((windowSource ⟨7, "A", 100, 200⟩ ∈ extract_screen_sources [] [⟨7, "A", 100, 200⟩]) ↔
       (("A" : String).isEmpty = false ∧ 100 ≤ 100 ∧ 100 ≤ 200)) := by
  decide

/-- C9 amended: an enumerated window entry appears in the extracted screen
sources if and only if its title is non-empty and its width and height are
strictly greater than 100 pixels. -/
theorem c9_amended (displays : List DisplayInfo) (windows : List WindowInfo) (w : WindowInfo)
    (hmem : w ∈ windows) :
    (windowSource w ∈ extract_screen_sources displays windows) ↔
      (w.title.isEmpty = false ∧ 100 < w.width ∧ 100 < w.height) := by
  constructor
  · intro h
    rcases List.mem_append.1 h with hL | hR
    · exfalso
      rcases List.mem_map.1 hL with ⟨d, _, hd⟩
      have : (displaySource d).is_display = (windowSource w).is_display := by rw [hd]
      simp [displaySource, windowSource] at this
    · rcases List.mem_map.1 hR with ⟨w2, hw2, heq⟩
      rcases List.mem_filter.1 hw2 with ⟨_, hkeep⟩
      have htitle : w2.title = w.title := congrArg ScreenSource.name heq
      have hwidth : w2.width = w.width := congrArg ScreenSource.width heq
      have hheight : w2.height = w.height := congrArg ScreenSource.height heq
      unfold windowKeep at hkeep
      rw [htitle, hwidth, hheight] at hkeep
      simpa [and_assoc] using hkeep
  · intro hcond
    refine List.mem_append.2 (Or.inr (List.mem_map.2 ⟨w, List.mem_filter.2 ⟨hmem, ?_⟩, rfl⟩))
    unfold windowKeep
    simp [hcond.1, hcond.2.1, hcond.2.2]

/-- Witness for the amended C9 at a concrete catalog. -/
theorem c9_witness :
    windowSource ⟨7, "Terminal", 800, 600⟩
      ∈ extract_screen_sources [] [⟨7, "Terminal", 800, 600⟩] :=
  (c9_amended [] [⟨7, "Terminal", 800, 600⟩] ⟨7, "Terminal", 800, 600⟩
    (by decide)).mpr (by decide)

/-- Witness for C2 at concrete configurations: a width of 50 is rejected
with the session untouched and no side effect, and an in-range configuration
passes validation. -/
theorem c2_witness :
    RecordingManager.start_recording RecordingManager.new ⟨true, true, true, true, true⟩
        ⟨some 50, some 720, some 30, none, none, none, "/tmp/out.mov", none, none⟩
      = (.error ⟨.InvalidArg, "Width must be between 100 and 7680"⟩, RecordingManager.new, [])
    ∧ validate_configuration
        ⟨some 1280, some 720, some 30, none, none, none, "/tmp/out.mov", none, none⟩
      = .ok () :=
  ⟨c2_validation_ranges_precede_effects.2 RecordingManager.new ⟨true, true, true, true, true⟩
      ⟨some 50, some 720, some 30, none, none, none, "/tmp/out.mov", none, none⟩
      ⟨.InvalidArg, "Width must be between 100 and 7680"⟩ (by decide),
   (c2_validation_ranges_precede_effects.1
      ⟨some 1280, some 720, some 30, none, none, none, "/tmp/out.mov", none, none⟩).mpr
      (by decide)⟩


theorem checkWidth_error_status (w : Option Nat) (e : NapiError)
    (h : checkWidth w = .error e) : e.status = .InvalidArg := by
  cases w with
  | none => simp [checkWidth] at h
  | some v =>
      simp only [checkWidth] at h
      split_ifs at h
      injection h with h2
      rw [← h2]

theorem checkHeight_error_status (w : Option Nat) (e : NapiError)
    (h : checkHeight w = .error e) : e.status = .InvalidArg := by
  cases w with
  | none => simp [checkHeight] at h
  | some v =>
      simp only [checkHeight] at h
      split_ifs at h
      injection h with h2
      rw [← h2]

theorem checkFps_error_status (w : Option Nat) (e : NapiError)
    (h : checkFps w = .error e) : e.status = .InvalidArg := by
  cases w with
  | none => simp [checkFps] at h
  | some v =>
      simp only [checkFps] at h
      split_ifs at h
      injection h with h2
      rw [← h2]

theorem validate_error_status (config : RecordingConfiguration) (e : NapiError)
    (h : validate_configuration config = .error e) : e.status = .InvalidArg := by
  unfold validate_configuration at h
  by_cases hpath : config.output_path.isEmpty = true
  · rw [if_pos hpath] at h
    injection h with h2
    rw [← h2]
  · rw [if_neg hpath] at h
    cases hw : checkWidth config.width with
    | error ew =>
        rw [hw] at h
        injection h with h2
        rw [← h2]
        exact checkWidth_error_status config.width ew hw
    | ok u =>
        rw [hw] at h
        cases hh : checkHeight config.height with
        | error eh =>
            rw [hh] at h
            injection h with h2
            rw [← h2]
            exact checkHeight_error_status config.height eh hh
        | ok v =>
            rw [hh] at h
            exact checkFps_error_status config.fps e h

/-- C1 counterexample: with the session `Recording`, `start()` on a
configuration with width 50 fails with the width-validation error (status
`InvalidArg`), not with the `AlreadyRecording` error, because validation runs
before the already-recording check. -/
theorem c1_counterexample :
    (RecordingManager.start_recording { RecordingManager.new with is_recording := true }
        ⟨true, true, true, true, true⟩
        ⟨some 50, some 720, some 30, none, none, none, "/tmp/out.mov", none, none⟩).1
      = .error ⟨.InvalidArg, "Width must be between 100 and 7680"⟩
    ∧ (⟨.InvalidArg, "Width must be between 100 and 7680"⟩ : NapiError)
        ≠ ⟨.GenericFailure, "Already recording"⟩ := by
  constructor
  · rfl
  · decide

/-- C1 amended: `stop()` while not recording always fails with the
`NotRecording` error; `start()` while recording always fails — with the
`AlreadyRecording` error exactly when the configuration passes validation,
and with the (InvalidArg) validation error otherwise. -/
theorem c1_amended :
    (∀ s : ManagerState, s.is_recording = false →
        (RecordingManager.stop_recording s).1
          = .error ⟨.GenericFailure, "Not currently recording"⟩)
    ∧ (∀ (s : ManagerState) (env : StartEnv) (config : RecordingConfiguration),
        s.is_recording = true →
          ((RecordingManager.start_recording s env config).1
              = .error ⟨.GenericFailure, "Already recording"⟩
            ↔ validate_configuration config = .ok ())
          ∧ ∃ e, (RecordingManager.start_recording s env config).1 = .error e) := by
  constructor
  · intro s h
    unfold RecordingManager.stop_recording
    simp [h]
  · intro s env config hrec
    cases hval : validate_configuration config with
    | ok u =>
        constructor
        · unfold RecordingManager.start_recording
          rw [hval]
          simp [hrec]
        · refine ⟨⟨.GenericFailure, "Already recording"⟩, ?_⟩
          unfold RecordingManager.start_recording
          rw [hval]
          simp [hrec]
    | error e =>
        have hst := validate_error_status config e hval
        constructor
        · constructor
          · intro habs
            unfold RecordingManager.start_recording at habs
            rw [hval] at habs
            have habs2 : (Except.error e : RResult String)
                = .error ⟨.GenericFailure, "Already recording"⟩ := habs
            injection habs2 with h2
            rw [h2] at hst
            simp at hst
          · intro habs
            exact Except.noConfusion habs
        · refine ⟨e, ?_⟩
          unfold RecordingManager.start_recording
          rw [hval]

/-- Witness for the amended C1: `stop()` on a fresh (Idle) session fails with
`NotRecording`, and `start()` with a valid configuration while recording
fails with `AlreadyRecording`. -/
theorem c1_witness :
    (RecordingManager.stop_recording RecordingManager.new).1
      = .error ⟨.GenericFailure, "Not currently recording"⟩
    ∧ (RecordingManager.start_recording { RecordingManager.new with is_recording := true }
        ⟨true, true, true, true, true⟩
        ⟨some 1280, some 720, some 30, none, none, none, "/tmp/out.mov", none, none⟩).1
      = .error ⟨.GenericFailure, "Already recording"⟩ :=
  ⟨c1_amended.1 RecordingManager.new rfl,
   ((c1_amended.2 { RecordingManager.new with is_recording := true }
      ⟨true, true, true, true, true⟩
      ⟨some 1280, some 720, some 30, none, none, none, "/tmp/out.mov", none, none⟩ rfl).1).mpr
      (by decide)⟩

/-- C6 counterexample: after a successful `start()`/`stop()` pair the first
stop returns the output path, but a second `stop()` fails with the
`NotRecording` error instead of returning the previous result. -/
theorem c6_counterexample :
    (RecordingManager.stop_recording
        (RecordingManager.start_recording RecordingManager.new ⟨true, true, true, true, true⟩
            ⟨some 1280, some 720, some 30, none, none, none, "/tmp/out.mov", none, none⟩).2.1).1
      = .ok "/tmp/out.mov"
    ∧ (RecordingManager.stop_recording
        (RecordingManager.stop_recording
            (RecordingManager.start_recording RecordingManager.new ⟨true, true, true, true, true⟩
                ⟨some 1280, some 720, some 30, none, none, none, "/tmp/out.mov", none, none⟩).2.1).2.1).1
      = .error ⟨.GenericFailure, "Not currently recording"⟩ := by
  constructor
  · rfl
  · rfl

/-- C6 amended: `stop()` is not idempotent at the session level — whenever a
`stop()` call succeeds, a second `stop()` on the resulting session fails with
the `NotRecording` error (the session is back in Idle; only the sink-level
`StreamOutput::stop_recording` returns the same path again). -/
theorem c6_amended (s : ManagerState) (p : String)
    (h : (RecordingManager.stop_recording s).1 = .ok p) :
    (RecordingManager.stop_recording (RecordingManager.stop_recording s).2.1).1
      = .error ⟨.GenericFailure, "Not currently recording"⟩ := by
  unfold RecordingManager.stop_recording at h ⊢
  cases hrec : s.is_recording
  · rw [hrec] at h
    simp at h
  · simp [hrec]

/-- Witness for the amended C6 at a concrete recording session. -/
theorem c6_witness :
    (RecordingManager.stop_recording
        (RecordingManager.stop_recording
            { RecordingManager.new with is_recording := true,
                                        output_path := some "/tmp/out.mov" }).2.1).1
      = .error ⟨.GenericFailure, "Not currently recording"⟩ :=
  c6_amended
    { RecordingManager.new with is_recording := true, output_path := some "/tmp/out.mov" }
    "/tmp/out.mov" (by decide)

/-- C5 counterexample: requesting a window filter for id 999 with a catalog
containing only windows 1 and 2 does not fail: the factory falls back to the
basic desktop filter and returns it successfully, contradicting the claim
that a `FilterCreationFailed` error is returned. -/
theorem c5_counterexample :
    ContentFilterFactory.create_window_filter ⟨true, true, [1, 2], true, true⟩ true 999
      = .ok ⟨ContentFilterType.Desktop, true⟩ := by
  rfl

/-- C5 amended: for a window id absent from the catalog, the exact-id tier
always fails and the factory falls back to the basic desktop filter; the call
returns an error only when that basic filter construction itself returns a
null handle. -/
theorem c5_amended (env : FilterEnv) (window_id : Nat)
    (habsent : env.window_ids.contains window_id = false) :
    ContentFilterFactory.create_window_filter env true window_id
      = if env.basic_filter_nonnull then .ok ⟨ContentFilterType.Desktop, true⟩
        else .error ⟨.GenericFailure, "Failed to create basic content filter"⟩ := by
  have hmem : window_id ∉ env.window_ids := by simpa using habsent
  unfold ContentFilterFactory.create_window_filter ContentFilter.new_for_window
    ContentFilter.new_basic
  cases hp : env.permission_ok <;> cases he : env.extract_ok <;>
    cases hb : env.basic_filter_nonnull <;> simp [hp, he, hb, hmem]

/-- Witness for the amended C5 at a concrete environment. -/
theorem c5_witness :
    ContentFilterFactory.create_window_filter ⟨true, true, [1], true, true⟩ true 999
      = .ok ⟨ContentFilterType.Desktop, true⟩ := by
  have h := c5_amended ⟨true, true, [1], true, true⟩ 999 (by decide)
  simpa using h

/-- C4 counterexample: when the video input is not ready, the handler
performs no write, yet no dedicated dropped-sample counter exists: the entire
state change is the increment of `video_frame_count`, the same counter that
is also incremented when the sample is written (second conjunct), so the
counter does not count drops. -/
theorem c4_counterexample :
    StreamOutput.handle_video_sample
        ⟨true, true, false, true, "/tmp/out.mov", true, true, 3, 0, some ⟨0, 600⟩,
         1280, 720, 30, false⟩
        ⟨true, false, true, true, true, true⟩ ⟨600, 600⟩
      = ⟨⟨true, true, false, true, "/tmp/out.mov", true, true, 4, 0, some ⟨0, 600⟩,
          1280, 720, 30, false⟩, [], .ok ()⟩
    ∧ StreamOutput.handle_video_sample
        ⟨true, true, false, true, "/tmp/out.mov", true, true, 3, 0, some ⟨0, 600⟩,
         1280, 720, 30, false⟩
        ⟨true, true, true, true, true, true⟩ ⟨600, 600⟩
      = ⟨⟨true, true, false, true, "/tmp/out.mov", true, true, 4, 0, some ⟨0, 600⟩,
          1280, 720, 30, false⟩,
         [.appendVideo ⟨600, 600⟩ (some ⟨0, 600⟩)], .ok ()⟩ := by
  constructor
  · rfl
  · rfl

/-- C4 amended: a sample delivered while the track is not ready is silently
skipped — no write happens and the call succeeds — and the per-kind sample
counter (not a dropped-sample counter) is incremented for every delivered
sample, written or skipped; when the track is ready (and the video sample
carries an image buffer) the sample is written. -/
theorem c4_amended :
    (∀ (s : StreamOutputState) (env : StreamOutput.WriterEnv) (pts : CMTime),
        s.recording_started = true → env.video_ready = false →
          StreamOutput.handle_video_sample s env pts
            = ⟨{ s with video_frame_count := s.video_frame_count + 1 }, [], .ok ()⟩)
    ∧ (∀ (s : StreamOutputState) (env : StreamOutput.WriterEnv) (pts : CMTime),
        s.recording_started = true → s.has_video_input = true →
          s.has_pixel_buffer_adaptor = true → env.video_ready = true →
          env.image_buffer_ok = true →
          StreamOutput.handle_video_sample s env pts
            = ⟨{ s with video_frame_count := s.video_frame_count + 1 },
               [.appendVideo pts s.start_time], .ok ()⟩)
    ∧ (∀ (s : StreamOutputState) (env : StreamOutput.WriterEnv) (pts : CMTime),
        s.capture_audio = true → s.recording_started = true → env.audio_ready = false →
          StreamOutput.handle_audio_sample s env pts
            = ⟨{ s with audio_sample_count := s.audio_sample_count + 1 }, [], .ok ()⟩)
    ∧ (∀ (s : StreamOutputState) (env : StreamOutput.WriterEnv) (pts : CMTime),
        s.capture_audio = true → s.recording_started = true →
          s.has_audio_input = true → env.audio_ready = true →
          StreamOutput.handle_audio_sample s env pts
            = ⟨{ s with audio_sample_count := s.audio_sample_count + 1 },
               [.appendAudio pts s.start_time], .ok ()⟩) := by
  refine ⟨?_, ?_, ?_, ?_⟩
  · intro s env pts hs hready
    rw [handle_video_of_started s env pts hs]
    simp [hready]
  · intro s env pts hs hvi hpa hready himg
    rw [handle_video_of_started s env pts hs]
    simp [hvi, hpa, hready, himg]
  · intro s env pts hcap hs hready
    rw [handle_audio_of_started s env pts hcap hs]
    simp [hready]
  · intro s env pts hcap hs hai hready
    rw [handle_audio_of_started s env pts hcap hs]
    simp [hai, hready]

/-- Witness for the amended C4 at a concrete state and sample. -/
theorem c4_witness :
    StreamOutput.handle_video_sample
        ⟨true, true, false, true, "/tmp/o.mov", true, true, 0, 0, some ⟨0, 600⟩,
         1280, 720, 30, false⟩
        ⟨true, false, true, true, true, true⟩ ⟨60, 600⟩
      = ⟨⟨true, true, false, true, "/tmp/o.mov", true, true, 1, 0, some ⟨0, 600⟩,
          1280, 720, 30, false⟩, [], .ok ()⟩ :=
  c4_amended.1
    ⟨true, true, false, true, "/tmp/o.mov", true, true, 0, 0, some ⟨0, 600⟩,
     1280, 720, 30, false⟩
    ⟨true, false, true, true, true, true⟩ ⟨60, 600⟩ rfl rfl


/-- C3: for the encoder sink in its post-initialization state (writer
installed, not yet started) and any sequence of delivered samples whose
start-writing call the writer accepts, the session start time is unset before
the first sample, is set from the first delivered sample's presentation
timestamp, keeps exactly that value after every further sample (so it is set
exactly once), and no sample is accepted (appended toward the container)
while the session start time is unset. -/
theorem c3_session_start_once (s0 : StreamOutputState) (d0 : DeliveredSample)
    (rest : List DeliveredSample)
    (hs : s0.recording_started = false) (ht : s0.start_time = none)
    (hw : s0.has_asset_writer = true) (hcap : s0.capture_audio = true)
    (henv : d0.env.start_writing_ok = true) :
    (processTrace s0 []).1.start_time = none
    ∧ (∀ n : Nat, (processTrace s0 ((d0 :: rest).take (n + 1))).1.start_time = some d0.pts)
    ∧ (∀ t os, StreamOutput.WEvent.appendVideo t os ∈ (processTrace s0 (d0 :: rest)).2 →
        os.isSome = true)
    ∧ (∀ t os, StreamOutput.WEvent.appendAudio t os ∈ (processTrace s0 (d0 :: rest)).2 →
        os.isSome = true) := by
  have hfirst := handleSample_first s0 d0 hs hw hcap henv
  refine ⟨ht, ?_, ?_, ?_⟩
  · intro n
    rw [List.take_succ_cons]
    simp only [processTrace]
    have hsteady := processTrace_of_started (handleSample s0 d0).state (rest.take n) hfirst.1
    rw [hsteady.2, hfirst.2]
  · intro t os hmem
    exact processTrace_append_isSome s0 (d0 :: rest) t os
      (fun _ => hw) (fun _ => hw) (fun hc => absurd hc (by simp [hs])) (Or.inl hmem)
  · intro t os hmem
    exact processTrace_append_isSome s0 (d0 :: rest) t os
      (fun _ => hw) (fun _ => hw) (fun hc => absurd hc (by simp [hs])) (Or.inr hmem)

/-- Witness for C3: on a concrete initialized sink and a two-sample trace,
the session start time ends up set to the first sample's timestamp. -/
theorem c3_witness :
    (processTrace
        ⟨true, true, true, true, "/tmp/out.mov", true, false, 0, 0, none, 1280, 720, 30, true⟩
        [⟨SampleKind.video, ⟨100, 600⟩, ⟨true, true, true, true, true, true⟩⟩,
         ⟨SampleKind.audio, ⟨110, 600⟩, ⟨true, true, true, true, true, true⟩⟩]).1.start_time
      = some ⟨100, 600⟩ :=
  (c3_session_start_once
      ⟨true, true, true, true, "/tmp/out.mov", true, false, 0, 0, none, 1280, 720, 30, true⟩
      ⟨SampleKind.video, ⟨100, 600⟩, ⟨true, true, true, true, true, true⟩⟩
      [⟨SampleKind.audio, ⟨110, 600⟩, ⟨true, true, true, true, true, true⟩⟩]
      rfl rfl rfl rfl rfl).2.1 1

/-- C8 counterexample: with the session start time set from the first sample
at presentation value 10, a later sample with value 5 is appended at 5 —
earlier than the session start time; the handler performs no ordering check
against the stored start time. -/
theorem c8_counterexample :
    StreamOutput.WEvent.appendVideo ⟨5, 600⟩ (some ⟨10, 600⟩)
        ∈ (processTrace
            ⟨true, true, true, true, "/tmp/out.mov", true, false, 0, 0, none,
             1280, 720, 30, true⟩
            [⟨SampleKind.video, ⟨10, 600⟩, ⟨true, true, true, true, true, true⟩⟩,
             ⟨SampleKind.video, ⟨5, 600⟩, ⟨true, true, true, true, true, true⟩⟩]).2
    ∧ (5 : Int) < 10 := by
  constructor
  · decide
  · decide

/-- C8 amended: provided every delivered sample's presentation time is at
least the first sample's (the code itself checks nothing), every video sample
appended to the container carries a session start time equal to the first
sample's timestamp and is appended at a presentation time no earlier than it. -/
theorem c8_amended (s0 : StreamOutputState) (d0 : DeliveredSample)
    (rest : List DeliveredSample)
    (hs : s0.recording_started = false) (ht : s0.start_time = none)
    (hw : s0.has_asset_writer = true) (hcap : s0.capture_audio = true)
    (henv : d0.env.start_writing_ok = true)
    (hmono : ∀ d, d ∈ d0 :: rest → d0.pts.value ≤ d.pts.value) :
    ∀ t os, StreamOutput.WEvent.appendVideo t os ∈ (processTrace s0 (d0 :: rest)).2 →
      os = some d0.pts ∧ d0.pts.value ≤ t.value := by
  intro t os hmem
  have hfirst := handleSample_first s0 d0 hs hw hcap henv
  simp only [processTrace, List.mem_append] at hmem
  rcases hmem with hmem | hmem
  · have hm := handleSample_appendVideo_mem s0 d0 t os hmem
    refine ⟨hm.2.trans hfirst.2, ?_⟩
    rw [hm.1]
  · have h2 := processTrace_appendVideo_steady (handleSample s0 d0).state rest d0.pts
      hfirst.1 hfirst.2 t os hmem
    rcases h2 with ⟨h2a, d2, h2b, h2c⟩
    refine ⟨h2a, ?_⟩
    rw [h2c]
    exact hmono d2 (List.mem_cons_of_mem d0 h2b)

/-- Witness for the amended C8 on a concrete monotone two-sample trace. -/
theorem c8_witness :
    (some (⟨100, 600⟩ : CMTime) : Option CMTime) = some ⟨100, 600⟩
    ∧ (100 : Int) ≤ 110 :=
  c8_amended
    ⟨true, true, true, true, "/tmp/out.mov", true, false, 0, 0, none, 1280, 720, 30, true⟩
    ⟨SampleKind.video, ⟨100, 600⟩, ⟨true, true, true, true, true, true⟩⟩
    [⟨SampleKind.video, ⟨110, 600⟩, ⟨true, true, true, true, true, true⟩⟩]
    rfl rfl rfl rfl rfl (by decide) ⟨110, 600⟩ (some ⟨100, 600⟩) (by decide)

end RustedScreenCapture
